import Mathlib

/-!
# Verification of the libtins `PacketSender` core (src/packet_sender.cpp)

A shallow embedding, in Lean 4, of the transmit/receive engine of the
packet-crafting library: deadline arithmetic, the channel pool (socket
lifecycle), the send dispatcher, and the receive-and-match loop.  Each
definition is translated from the corresponding C++ function; external
collaborators (the OS socket calls, the PDU matcher/factory hooks) are
modelled as explicit oracle parameters or as deterministic state
components, as noted at each definition.
-/

namespace PacketSender

/-! ## Deadline arithmetic (`PacketSender::timeval_subtract`)

`struct timeval` carries a seconds field and a microseconds field; both are
signed integers in C (`time_t` / `suseconds_t`), so we model them as `Int`.
C integer division truncates toward zero, which is `Int.tdiv`. -/

structure Timeval where
  tv_sec : Int
  tv_usec : Int
  deriving DecidableEq, Repr

/-- `PacketSender::timeval_subtract(result, x, y)` translated from
packet_sender.cpp lines 490-511.  The C function mutates `y` in place to
perform the carry; we thread the updated `y` through `let` bindings.  It
returns the C `int` result (1 when `x->tv_sec < y->tv_sec` after the carry,
0 otherwise), here a `Bool`, paired with the computed `result`. -/
def timeval_subtract (x y : Timeval) : Bool × Timeval :=
  -- Perform the carry for the later subtraction by updating y.
  let y :=
    if x.tv_usec < y.tv_usec then
      let nsec : Int := (y.tv_usec - x.tv_usec).tdiv 1000000 + 1
      { tv_usec := y.tv_usec - 1000000 * nsec, tv_sec := y.tv_sec + nsec }
    else y
  let y :=
    if x.tv_usec - y.tv_usec > 1000000 then
      let nsec : Int := (x.tv_usec - y.tv_usec).tdiv 1000000
      { tv_usec := y.tv_usec + 1000000 * nsec, tv_sec := y.tv_sec - nsec }
    else y
  (decide (x.tv_sec < y.tv_sec),
   { tv_sec := x.tv_sec - y.tv_sec, tv_usec := x.tv_usec - y.tv_usec })

/-- A timeval with its microsecond field normalized to `[0, 1000000)`. -/
def Timeval.Normalized (t : Timeval) : Prop :=
  0 ≤ t.tv_usec ∧ t.tv_usec < 1000000

instance (t : Timeval) : Decidable t.Normalized := by
  unfold Timeval.Normalized; infer_instance

/-- Lexicographic order on timevals: seconds compare first, microseconds
break ties.  This is the "deadline < now" order of the claim. -/
def Timeval.lt (x y : Timeval) : Prop :=
  x.tv_sec < y.tv_sec ∨ (x.tv_sec = y.tv_sec ∧ x.tv_usec < y.tv_usec)

instance (x y : Timeval) : Decidable (Timeval.lt x y) := by
  unfold Timeval.lt; infer_instance

/-- Total value of a timeval in microseconds. -/
def Timeval.total (t : Timeval) : Int :=
  t.tv_sec * 1000000 + t.tv_usec

lemma tdiv_small_eq_zero {d : Int} (h0 : 0 ≤ d) (h1 : d < 1000000) :
    d.tdiv 1000000 = 0 := by
  obtain ⟨n, rfl⟩ := Int.eq_ofNat_of_zero_le h0
  have hn : n < 1000000 := by exact_mod_cast h1
  show (Int.ofNat n).tdiv (Int.ofNat 1000000) = 0
  simp only [Int.tdiv]
  simp [Nat.div_eq_of_lt hn]

/-- **C1**: for every pair of timestamps `deadline` (= `x`) and `now` (= `y`)
whose microsecond fields are normalized to `[0, 1000000)`,
`timeval_subtract` returns expired = true iff `deadline < now`
(lexicographically, seconds primary and microseconds tie-break), and when
expired = false the result has non-negative seconds, microseconds in
`[0, 1000000)`, and equals the exact difference `deadline - now`. -/
theorem timeval_subtract_correct (x y : Timeval)
    (hx : x.Normalized) (hy : y.Normalized) :
    ((timeval_subtract x y).1 = true ↔ Timeval.lt x y) ∧
    ((timeval_subtract x y).1 = false →
      0 ≤ (timeval_subtract x y).2.tv_sec ∧
      (timeval_subtract x y).2.Normalized ∧
      (timeval_subtract x y).2.total = x.total - y.total) := by
  obtain ⟨hx0, hx1⟩ := hx
  obtain ⟨hy0, hy1⟩ := hy
  unfold timeval_subtract
  by_cases hlt : x.tv_usec < y.tv_usec
  · -- carry branch taken: with normalized inputs nsec = 1
    have hdiv : (y.tv_usec - x.tv_usec).tdiv 1000000 = 0 :=
      tdiv_small_eq_zero (by omega) (by omega)
    simp only [hlt, if_true, hdiv]
    have hsecond : ¬ (x.tv_usec - (y.tv_usec - 1000000 * (0 + 1)) > 1000000) := by
      omega
    simp only [hsecond, if_false]
    constructor
    · simp only [decide_eq_true_eq, Timeval.lt]
      omega
    · intro hfalse
      simp only [decide_eq_false_iff_not, not_lt] at hfalse
      simp only [Timeval.Normalized, Timeval.total]
      refine ⟨by omega, ⟨by omega, by omega⟩, by omega⟩
  · -- no carry: the renormalization branch is also untaken
    have hsecond : ¬ (x.tv_usec - y.tv_usec > 1000000) := by omega
    simp only [hlt, if_false, hsecond]
    constructor
    · simp only [decide_eq_true_eq, Timeval.lt]
      omega
    · intro hfalse
      simp only [decide_eq_false_iff_not, not_lt] at hfalse
      simp only [Timeval.Normalized, Timeval.total]
      refine ⟨by omega, ⟨by omega, by omega⟩, by omega⟩

/-- Witness for `timeval_subtract_correct` at `x = (5, 300)`, `y = (3, 700)`. -/
theorem timeval_subtract_correct_witness :
    ((timeval_subtract ⟨5, 300⟩ ⟨3, 700⟩).1 = true ↔
        Timeval.lt ⟨5, 300⟩ ⟨3, 700⟩) ∧
    ((timeval_subtract ⟨5, 300⟩ ⟨3, 700⟩).1 = false →
      0 ≤ (timeval_subtract ⟨5, 300⟩ ⟨3, 700⟩).2.tv_sec ∧
      (timeval_subtract ⟨5, 300⟩ ⟨3, 700⟩).2.Normalized ∧
      (timeval_subtract ⟨5, 300⟩ ⟨3, 700⟩).2.total =
        Timeval.total ⟨5, 300⟩ - Timeval.total ⟨3, 700⟩) :=
  timeval_subtract_correct ⟨5, 300⟩ ⟨3, 700⟩
    (by constructor <;> decide) (by constructor <;> decide)

/-! ## Receive-match loop (`PacketSender::recv_match_loop`), generic path

The loop (packet_sender.cpp lines 413-488) multiplexes a set of descriptors
with `select`, reads each ready descriptor once per iteration, hands the
read bytes to the externally supplied matcher `pdu.matches_response`, and on
acceptance returns `Internals::pdu_from_flag(pdu.pdu_type(), buffer, size)`.
We model one iteration as a pure step function over an iteration input that
records the environment's behaviour for that iteration: the `select` return
value, the per-ready-descriptor `recvfrom` results (raw byte buffer and
signed size, in the loop's stable descriptor iteration order), and the
`gettimeofday` result.  The matcher is an oracle `List Nat → Int → Bool`
receiving the scratch buffer and the raw signed size, exactly as the code
passes them; the constructed reply is modelled as the (buffer, size) pair
handed to the factory. -/

/-- One ready descriptor's `recvfrom` outcome on the generic (non-BSD)
path: the signed return value of the read and the scratch buffer bytes. -/
structure ReadyFd where
  size : Int
  buffer : List Nat
  deriving DecidableEq, Repr

/-- The environment of a single loop iteration: `select`'s return value,
the ready descriptors' read results (in iteration order), and the
`gettimeofday` timestamp taken at the bottom of the iteration. -/
structure IterInput where
  selectRet : Int
  ready : List ReadyFd
  thisTime : Timeval
  deriving DecidableEq, Repr

/-- Outcome of one iteration of `recv_match_loop`: return 0 (no reply),
return a constructed reply, or continue with the recomputed `select`
timeout. -/
inductive StepResult where
  | returnNone : StepResult
  | returnReply (buffer : List Nat) (size : Int) : StepResult
  | continueWith (timeout : Timeval) : StepResult
  deriving DecidableEq, Repr

/-- The per-iteration read-and-match walk over the ready descriptors
(packet_sender.cpp lines 450-473, generic branch at lines 465-471): for
each ready descriptor the code calls `recvfrom` and then unconditionally
calls `pdu.matches_response(buffer, size)`, returning the constructed
reply on the first acceptance. -/
def firstMatch (m : List Nat → Int → Bool) : List ReadyFd → Option (List Nat × Int)
  | [] => none
  | fd :: rest =>
      if m fd.buffer fd.size then some (fd.buffer, fd.size)
      else firstMatch m rest

/-- One iteration of the `while (true)` loop body of `recv_match_loop`
(packet_sender.cpp lines 439-486, generic path): `select` error returns 0;
otherwise, when `select` reported readiness, each ready descriptor is read
and matched; if no reply was returned, `gettimeofday` is taken,
`timeval_subtract(diff, end_time, this_time)` decides expiry (return 0) or
yields the next relative timeout. -/
def recvStep (m : List Nat → Int → Bool) (endTime : Timeval)
    (inp : IterInput) : StepResult :=
  if inp.selectRet = -1 then .returnNone
  else
    match (if inp.selectRet > 0 then firstMatch m inp.ready else none) with
    | some (buf, sz) => .returnReply buf sz
    | none =>
        let (expired, diff) := timeval_subtract endTime inp.thisTime
        if expired then .returnNone
        else .continueWith diff

/-- Runs `recv_match_loop` over a finite trace of iteration environments,
starting from the initial relative timeout `(_timeout, timeout_usec_)`.
Returns the list of relative timeouts passed to successive `select` calls
and, when the loop returned within the trace, its result (`some none` for
a timeout/error return, `some (some reply)` for a matched reply; `none`
when the trace was exhausted with the loop still running). -/
def recvRun (m : List Nat → Int → Bool) (endTime : Timeval) :
    Timeval → List IterInput → List Timeval × Option (Option (List Nat × Int))
  | _, [] => ([], none)
  | timeout, inp :: rest =>
      match recvStep m endTime inp with
      | .returnNone => ([timeout], some none)
      | .returnReply buf sz => ([timeout], some (some (buf, sz)))
      | .continueWith diff =>
          let (ts, res) := recvRun m endTime diff rest
          (timeout :: ts, res)

/-! ## Receive-match loop, batched-capture (BSD/bpf) path

On BSD platforms the capture device coalesces several records into one
`::read`; the loop (packet_sender.cpp lines 453-464) walks the buffer as a
sequence of `bpf_hdr`-prefixed records: at each position it reads the
header, tests the payload span `(ptr + bh_hdrlen, bh_caplen)` against the
matcher, and advances by `BPF_WORDALIGN(bh_hdrlen + bh_caplen)`.  We model
the buffer abstractly as the ordered list of records it contains (header
length, capture length, payload bytes); the pointer arithmetic over the
byte buffer is kept explicit as an integer offset against the read size,
so the walk's loop condition `ptr < buffer + size` is `off < size`. -/

/-- One bpf record inside a batched read buffer: the `bpf_hdr` fields the
walk consults plus the payload bytes starting at `ptr + bh_hdrlen`. -/
structure BpfRec where
  bh_hdrlen : Nat
  bh_caplen : Nat
  payload : List Nat
  deriving DecidableEq, Repr

/-- `BPF_WORDALIGN` from net/bpf.h: round up to the platform alignment
boundary (`BPF_ALIGNMENT = sizeof(int32_t) = 4`). -/
def BPF_WORDALIGN (x : Nat) : Nat := ((x + 3) / 4) * 4

/-- Total number of buffer bytes occupied by a list of alignment-padded
records: each record spans `BPF_WORDALIGN(bh_hdrlen + bh_caplen)` bytes. -/
def alignedSize : List BpfRec → Nat
  | [] => 0
  | r :: rest => BPF_WORDALIGN (r.bh_hdrlen + r.bh_caplen) + alignedSize rest

/-- The record walk of packet_sender.cpp lines 456-464: while
`ptr < buffer + size`, test the current record's payload span; on a match
return it (the code returns `pdu_from_flag(pdu.pdu_type(), pkt_start,
bh_caplen)`, modelled as the matched record); otherwise advance `ptr` by
the record's aligned size.  Returns the number of matcher tests performed
and the matched record, if any.  The record list is the abstraction of the
byte buffer's contents, so the walk also stops when it is exhausted; when
`size` equals the records' total aligned size the two exhaustions
coincide. -/
def bsdWalk (m : List Nat → Nat → Bool) (size : Int) :
    Int → List BpfRec → Nat × Option BpfRec
  | _, [] => (0, none)
  | off, r :: rest =>
      if off < size then
        if m r.payload r.bh_caplen then (1, some r)
        else
          let step := bsdWalk m size
            (off + (BPF_WORDALIGN (r.bh_hdrlen + r.bh_caplen) : Int)) rest
          (step.1 + 1, step.2)
      else (0, none)

/-- One ready descriptor's batched `::read` outcome on the BSD path: the
signed read size and the records the buffer contains. -/
structure BsdReadyFd where
  size : Int
  records : List BpfRec
  deriving DecidableEq, Repr

/-- The per-iteration processing of the ready descriptors on the BSD path
(packet_sender.cpp lines 450-464): each ready descriptor is read exactly
once and its buffer walked; the first accepted record is returned
immediately, so later ready descriptors are not read.  Returns the number
of `::read` calls performed and the matched record, if any. -/
def bsdIteration (m : List Nat → Nat → Bool) :
    List BsdReadyFd → Nat × Option BpfRec
  | [] => (0, none)
  | fd :: rest =>
      match (bsdWalk m fd.size 0 fd.records).2 with
      | some r => (1, some r)
      | none =>
          let step := bsdIteration m rest
          (step.1 + 1, step.2)

lemma BPF_WORDALIGN_pos {x : Nat} (h : 0 < x) : 0 < BPF_WORDALIGN x := by
  unfold BPF_WORDALIGN
  omega

lemma bsdWalk_no_match (m : List Nat → Nat → Bool) :
    ∀ (recs : List BpfRec) (off size : Int),
      size = off + (alignedSize recs : Int) →
      (∀ r ∈ recs, 0 < r.bh_hdrlen + r.bh_caplen) →
      (∀ r ∈ recs, m r.payload r.bh_caplen = false) →
      bsdWalk m size off recs = (recs.length, none) := by
  intro recs
  induction recs with
  | nil => intro off size _ _ _; rfl
  | cons r rest ih =>
      intro off size hsize hpos hm
      have halign : 0 < BPF_WORDALIGN (r.bh_hdrlen + r.bh_caplen) :=
        BPF_WORDALIGN_pos (hpos r (List.mem_cons_self r rest))
      have hoff : off < size := by
        have : (0 : Int) ≤ (alignedSize rest : Int) := Int.ofNat_nonneg _
        simp only [alignedSize] at hsize
        omega
      have hmr : m r.payload r.bh_caplen = false :=
        hm r (List.mem_cons_self r rest)
      have hrec := ih (off + (BPF_WORDALIGN (r.bh_hdrlen + r.bh_caplen) : Int))
        size (by simp only [alignedSize] at hsize; push_cast at hsize ⊢; omega)
        (fun p hp => hpos p (List.mem_cons_of_mem r hp))
        (fun p hp => hm p (List.mem_cons_of_mem r hp))
      simp only [bsdWalk, if_pos hoff, hmr, if_false, hrec, List.length_cons]
      simp

lemma bsdWalk_first_match (m : List Nat → Nat → Bool) :
    ∀ (pre : List BpfRec) (r : BpfRec) (suf : List BpfRec) (off size : Int),
      size = off + (alignedSize (pre ++ r :: suf) : Int) →
      (∀ p ∈ pre ++ [r], 0 < p.bh_hdrlen + p.bh_caplen) →
      (∀ p ∈ pre, m p.payload p.bh_caplen = false) →
      m r.payload r.bh_caplen = true →
      bsdWalk m size off (pre ++ r :: suf) = (pre.length + 1, some r) := by
  intro pre
  induction pre with
  | nil =>
      intro r suf off size hsize hpos _ hm
      have halign : 0 < BPF_WORDALIGN (r.bh_hdrlen + r.bh_caplen) :=
        BPF_WORDALIGN_pos (hpos r (by simp))
      have hoff : off < size := by
        have : (0 : Int) ≤ (alignedSize suf : Int) := Int.ofNat_nonneg _
        simp only [List.nil_append, alignedSize] at hsize
        omega
      simp [bsdWalk, hoff, hm]
  | cons p pre ih =>
      intro r suf off size hsize hpos hnm hm
      have halign : 0 < BPF_WORDALIGN (p.bh_hdrlen + p.bh_caplen) :=
        BPF_WORDALIGN_pos (hpos p (by simp))
      simp only [List.cons_append, alignedSize, List.append_eq] at hsize
      push_cast at hsize
      have hnn : (0 : Int) ≤ (alignedSize (pre ++ r :: suf) : Int) :=
        Int.ofNat_nonneg _
      have hoff : off < size := by omega
      have hmp : m p.payload p.bh_caplen = false :=
        hnm p (List.mem_cons_self p pre)
      have hrec := ih r suf (off + (BPF_WORDALIGN (p.bh_hdrlen + p.bh_caplen) : Int))
        size (by omega)
        (fun q hq => hpos q (by simp at hq ⊢; tauto))
        (fun q hq => hnm q (List.mem_cons_of_mem p hq))
        hm
      simp only [List.cons_append, bsdWalk, if_pos hoff, hmp, Bool.false_eq_true,
        if_false, List.append_eq]
      rw [hrec]
      simp [List.length_cons]

/-- **C2**: for a read buffer containing K alignment-padded (header +
payload) records on the batched-capture (BSD/bpf) path, one iteration of
the receive-match loop tests the K candidate payload spans in order: when
no record matches, exactly K spans are tested and no reply is returned;
when the j-th span (1-indexed, `j = pre.length + 1`) is the first for
which the matcher returns true, the walk returns the reply built from that
span immediately after j tests, and the iteration performs no further
`::read` calls (exactly one read in total, the remaining ready descriptors
untouched). -/
theorem recv_batched_demux (m : List Nat → Nat → Bool) :
    (∀ recs : List BpfRec,
      (∀ r ∈ recs, 0 < r.bh_hdrlen + r.bh_caplen) →
      (∀ r ∈ recs, m r.payload r.bh_caplen = false) →
      bsdWalk m ((alignedSize recs : Nat) : Int) 0 recs = (recs.length, none)) ∧
    (∀ (pre : List BpfRec) (r : BpfRec) (suf : List BpfRec)
        (rest : List BsdReadyFd),
      (∀ p ∈ pre ++ [r], 0 < p.bh_hdrlen + p.bh_caplen) →
      (∀ p ∈ pre, m p.payload p.bh_caplen = false) →
      m r.payload r.bh_caplen = true →
      bsdWalk m ((alignedSize (pre ++ r :: suf) : Nat) : Int) 0 (pre ++ r :: suf)
          = (pre.length + 1, some r) ∧
      bsdIteration m
          ({ size := ((alignedSize (pre ++ r :: suf) : Nat) : Int),
             records := pre ++ r :: suf } :: rest)
          = (1, some r)) := by
  constructor
  · intro recs hpos hm
    exact bsdWalk_no_match m recs 0 ((alignedSize recs : Nat) : Int)
      (by simp) hpos hm
  · intro pre r suf rest hpos hnm hm
    have hw := bsdWalk_first_match m pre r suf 0
      ((alignedSize (pre ++ r :: suf) : Nat) : Int) (by simp) hpos hnm hm
    refine ⟨hw, ?_⟩
    simp only [bsdIteration, hw]

/-- Witness for `recv_batched_demux`: three records of capture lengths
1, 2, 3; the matcher accepts exactly capture length 2, so the second
record is the first match. -/
theorem recv_batched_demux_witness :
    bsdWalk (fun _ c => decide (c = 2))
        ((alignedSize ([⟨18, 1, [9]⟩] ++ ⟨18, 2, [5, 6]⟩ :: [⟨18, 3, [1, 2, 3]⟩]) : Nat) : Int)
        0 ([⟨18, 1, [9]⟩] ++ ⟨18, 2, [5, 6]⟩ :: [⟨18, 3, [1, 2, 3]⟩])
        = (2, some ⟨18, 2, [5, 6]⟩) ∧
    bsdIteration (fun _ c => decide (c = 2))
        ({ size := ((alignedSize ([⟨18, 1, [9]⟩] ++ ⟨18, 2, [5, 6]⟩ :: [⟨18, 3, [1, 2, 3]⟩]) : Nat) : Int),
           records := [⟨18, 1, [9]⟩] ++ ⟨18, 2, [5, 6]⟩ :: [⟨18, 3, [1, 2, 3]⟩] } :: [])
        = (1, some ⟨18, 2, [5, 6]⟩) :=
  (recv_batched_demux (fun _ c => decide (c = 2))).2
    [⟨18, 1, [9]⟩] ⟨18, 2, [5, 6]⟩ [⟨18, 3, [1, 2, 3]⟩] []
    (by decide) (by decide) (by decide)

/-! ### Exit behaviour of one loop iteration -/

lemma firstMatch_eq_none (m : List Nat → Int → Bool) :
    ∀ ready : List ReadyFd,
      (∀ fd ∈ ready, m fd.buffer fd.size = false) →
      firstMatch m ready = none := by
  intro ready
  induction ready with
  | nil => intro _; rfl
  | cons fd rest ih =>
      intro h
      have hfd : m fd.buffer fd.size = false := h fd (List.mem_cons_self fd rest)
      simp only [firstMatch, hfd, Bool.false_eq_true, if_false]
      exact ih (fun q hq => h q (List.mem_cons_of_mem fd hq))

lemma recvStep_continueWith_inv (m : List Nat → Int → Bool)
    (endTime : Timeval) (inp : IterInput) (d : Timeval)
    (h : recvStep m endTime inp = .continueWith d) :
    (timeval_subtract endTime inp.thisTime).1 = false ∧
    (timeval_subtract endTime inp.thisTime).2 = d := by
  unfold recvStep at h
  by_cases h1 : inp.selectRet = -1
  · simp [h1] at h
  · simp only [h1, if_false] at h
    cases hm : (if inp.selectRet > 0 then firstMatch m inp.ready else none) with
    | some v =>
        rw [hm] at h
        cases v
        simp at h
    | none =>
        rw [hm] at h
        cases hts : timeval_subtract endTime inp.thisTime with
        | mk e diffv =>
            rw [hts] at h
            cases e
            · simp at h
              exact ⟨rfl, h⟩
            · simp at h

lemma recvStep_continue_nonneg (m : List Nat → Int → Bool)
    (endTime : Timeval) (inp : IterInput) (d : Timeval)
    (hend : endTime.Normalized) (hthis : inp.thisTime.Normalized)
    (h : recvStep m endTime inp = .continueWith d) :
    0 ≤ d.tv_sec ∧ d.Normalized := by
  obtain ⟨hexp, hd⟩ := recvStep_continueWith_inv m endTime inp d h
  have hc := (timeval_subtract_correct endTime inp.thisTime hend hthis).2 hexp
  rw [hd] at hc
  exact ⟨hc.1, hc.2.1⟩

/-- **C3** (amended): a negative remaining time is never passed to `select`:
every relative timeout handed to `select` across a run has non-negative
seconds and microseconds, provided the configured initial timeout does and
the clock readings are normalized.  However, a *zero* remaining time is
passed to `select`: when the deadline equals the current time exactly,
`timeval_subtract` reports not-expired with a zero difference and the loop
issues another `select` with a zero timeout instead of returning
immediately; only a strictly negative remaining time causes the immediate
`None` return. -/
theorem recv_timeout_never_negative (m : List Nat → Int → Bool)
    (endTime : Timeval) (hend : endTime.Normalized) :
    (∀ (t0 : Timeval) (trace : List IterInput),
      0 ≤ t0.tv_sec ∧ 0 ≤ t0.tv_usec →
      (∀ inp ∈ trace, inp.thisTime.Normalized) →
      ∀ t ∈ (recvRun m endTime t0 trace).1, 0 ≤ t.tv_sec ∧ 0 ≤ t.tv_usec) ∧
    (∀ inp : IterInput, inp.selectRet ≠ -1 →
      (inp.selectRet > 0 → firstMatch m inp.ready = none) →
      timeval_subtract endTime inp.thisTime = (false, ⟨0, 0⟩) →
      recvStep m endTime inp = .continueWith ⟨0, 0⟩) := by
  constructor
  · intro t0 trace
    induction trace generalizing t0 with
    | nil =>
        intro _ _ t ht
        simp [recvRun] at ht
    | cons inp rest ih =>
        intro h0 htr t ht
        cases hstep : recvStep m endTime inp with
        | returnNone =>
            simp only [recvRun, hstep] at ht
            simp at ht
            subst ht; exact h0
        | returnReply buf sz =>
            simp only [recvRun, hstep] at ht
            simp at ht
            subst ht; exact h0
        | continueWith d =>
            simp only [recvRun, hstep] at ht
            simp at ht
            rcases ht with rfl | ht
            · exact h0
            · have hd := recvStep_continue_nonneg m endTime inp d hend
                (htr inp (List.mem_cons_self inp rest)) hstep
              exact ih d ⟨hd.1, hd.2.1⟩
                (fun q hq => htr q (List.mem_cons_of_mem inp hq)) t ht
  · intro inp h1 h2 h3
    unfold recvStep
    rw [if_neg h1]
    have hm0 : (if inp.selectRet > 0 then firstMatch m inp.ready else none)
        = none := by
      by_cases hgt : inp.selectRet > 0
      · rw [if_pos hgt]; exact h2 hgt
      · rw [if_neg hgt]
    rw [hm0, h3]
    rfl

/-- Witness for `recv_timeout_never_negative`: a run with one intermediate
iteration, and the zero-remaining step at `deadline = now = (10, 0)`. -/
theorem recv_timeout_never_negative_witness :
    (0 ≤ (Timeval.mk 2 0).tv_sec ∧ 0 ≤ (Timeval.mk 2 0).tv_usec) ∧
    recvStep (fun _ _ => false) ⟨10, 0⟩ ⟨0, [], ⟨10, 0⟩⟩
      = .continueWith ⟨0, 0⟩ :=
  ⟨(recv_timeout_never_negative (fun _ _ => false) ⟨10, 0⟩
      (by constructor <;> decide)).1 ⟨2, 0⟩ [⟨0, [], ⟨9, 0⟩⟩]
      (by constructor <;> decide) (by decide) ⟨2, 0⟩ (by decide),
   (recv_timeout_never_negative (fun _ _ => false) ⟨10, 0⟩
      (by constructor <;> decide)).2 ⟨0, [], ⟨10, 0⟩⟩
      (by decide) (by decide) (by decide)⟩

/-- **C3** counterexample: with deadline `(10, 0)` and a first iteration
whose clock reading is exactly `(10, 0)` (remaining time zero), the loop
does not return `None`: it issues a second `select` whose relative timeout
is `(0, 0)`, as the recorded timeout trace shows; only the next iteration,
with the clock strictly past the deadline, returns `None`. -/
theorem recv_zero_wait_counterexample :
    recvRun (fun _ _ => false) ⟨10, 0⟩ ⟨2, 0⟩
        [⟨0, [], ⟨10, 0⟩⟩, ⟨0, [], ⟨11, 0⟩⟩]
      = ([⟨2, 0⟩, ⟨0, 0⟩], some none) := by
  decide

/-- **C4** (amended): a read returning zero or negative size raises no
error on either platform path, but the two paths treat it differently.  On
the batched (BSD) path the record walk performs no matcher tests and
yields no candidate.  On the generic path the scratch buffer and the raw
signed size are passed to the matcher unconditionally; the read yields no
candidate only when the matcher rejects it, in which case the iteration
falls through to the ordinary deadline check. -/
theorem recv_zero_read_policy (m : List Nat → Int → Bool)
    (mb : List Nat → Nat → Bool) :
    (∀ (size : Int) (recs : List BpfRec), size ≤ 0 →
      bsdWalk mb size 0 recs = (0, none)) ∧
    (∀ (endTime : Timeval) (inp : IterInput), inp.selectRet ≠ -1 →
      (∀ fd ∈ inp.ready, m fd.buffer fd.size = false) →
      recvStep m endTime inp =
        (if (timeval_subtract endTime inp.thisTime).1 = true then .returnNone
         else .continueWith (timeval_subtract endTime inp.thisTime).2)) := by
  constructor
  · intro size recs hsz
    cases recs with
    | nil => rfl
    | cons r rest =>
        simp only [bsdWalk]
        rw [if_neg (by omega)]
  · intro endTime inp h1 hm
    unfold recvStep
    rw [if_neg h1]
    have hm0 : (if inp.selectRet > 0 then firstMatch m inp.ready else none)
        = none := by
      by_cases hgt : inp.selectRet > 0
      · rw [if_pos hgt]; exact firstMatch_eq_none m inp.ready hm
      · rw [if_neg hgt]
    rw [hm0]

/-- Witness for `recv_zero_read_policy`: a negative-size batched read
tests nothing; a zero-size generic read with a rejecting matcher falls
through to the deadline check. -/
theorem recv_zero_read_policy_witness :
    bsdWalk (fun _ _ => true) (-1) 0 [⟨18, 4, [1]⟩] = (0, none) ∧
    recvStep (fun _ _ => false) ⟨10, 0⟩ ⟨1, [⟨0, []⟩], ⟨9, 0⟩⟩ =
      (if (timeval_subtract ⟨10, 0⟩ (IterInput.mk 1 [⟨0, []⟩] ⟨9, 0⟩).thisTime).1 = true
       then .returnNone
       else .continueWith
         (timeval_subtract ⟨10, 0⟩ (IterInput.mk 1 [⟨0, []⟩] ⟨9, 0⟩).thisTime).2) :=
  ⟨(recv_zero_read_policy (fun _ _ => false) (fun _ _ => true)).1 (-1)
      [⟨18, 4, [1]⟩] (by decide),
   (recv_zero_read_policy (fun _ _ => false) (fun _ _ => true)).2 ⟨10, 0⟩
      ⟨1, [⟨0, []⟩], ⟨9, 0⟩⟩ (by decide) (by decide)⟩

/-- **C4** counterexample: on the generic path a ready descriptor whose
read returned size 0 *is* offered to the matcher: with a matcher that
accepts a zero-size candidate, the iteration returns a reply built from
the zero-size read, rather than treating it as "no candidate". -/
theorem recv_zero_read_counterexample :
    recvStep (fun _ sz => decide (sz = 0)) ⟨10, 0⟩ ⟨1, [⟨0, [7]⟩], ⟨5, 0⟩⟩
      = .returnReply [7] 0 := by
  decide

/-- **C5**: the receive-match loop never propagates an error to its
caller: a `select` failure (return value -1) produces the same
`returnNone` outcome as deadline expiry, and in a full run both surface as
the reply-less result `some none`, indistinguishable from an ordinary
timeout. -/
theorem recv_no_error_propagation (m : List Nat → Int → Bool)
    (endTime : Timeval) :
    (∀ inp : IterInput, inp.selectRet = -1 →
      recvStep m endTime inp = .returnNone) ∧
    (∀ inp : IterInput, inp.selectRet ≠ -1 →
      (inp.selectRet > 0 → firstMatch m inp.ready = none) →
      (timeval_subtract endTime inp.thisTime).1 = true →
      recvStep m endTime inp = .returnNone) ∧
    (∀ (t0 : Timeval) (inp : IterInput) (rest : List IterInput),
      recvStep m endTime inp = .returnNone →
      recvRun m endTime t0 (inp :: rest) = ([t0], some none)) := by
  refine ⟨?_, ?_, ?_⟩
  · intro inp h
    unfold recvStep
    rw [if_pos h]
  · intro inp h1 h2 h3
    unfold recvStep
    rw [if_neg h1]
    have hm0 : (if inp.selectRet > 0 then firstMatch m inp.ready else none)
        = none := by
      by_cases hgt : inp.selectRet > 0
      · rw [if_pos hgt]; exact h2 hgt
      · rw [if_neg hgt]
    rw [hm0]
    cases hts : timeval_subtract endTime inp.thisTime with
    | mk e dv =>
        rw [hts] at h3
        simp at h3
        subst h3
        simp
  · intro t0 inp rest h
    simp [recvRun, h]

/-- Witness for `recv_no_error_propagation`: a `select` failure and a
deadline expiry both collapse to the same reply-less run result. -/
theorem recv_no_error_propagation_witness :
    recvStep (fun _ _ => false) ⟨10, 0⟩ ⟨-1, [], ⟨5, 0⟩⟩ = .returnNone ∧
    recvStep (fun _ _ => false) ⟨10, 0⟩ ⟨0, [], ⟨11, 0⟩⟩ = .returnNone ∧
    recvRun (fun _ _ => false) ⟨10, 0⟩ ⟨2, 0⟩ [⟨-1, [], ⟨5, 0⟩⟩]
      = ([⟨2, 0⟩], some none) :=
  ⟨(recv_no_error_propagation (fun _ _ => false) ⟨10, 0⟩).1
      ⟨-1, [], ⟨5, 0⟩⟩ (by decide),
   (recv_no_error_propagation (fun _ _ => false) ⟨10, 0⟩).2.1
      ⟨0, [], ⟨11, 0⟩⟩ (by decide) (by decide) (by decide),
   (recv_no_error_propagation (fun _ _ => false) ⟨10, 0⟩).2.2 ⟨2, 0⟩
      ⟨-1, [], ⟨5, 0⟩⟩ []
      ((recv_no_error_propagation (fun _ _ => false) ⟨10, 0⟩).1
        ⟨-1, [], ⟨5, 0⟩⟩ (by decide))⟩

/-! ## Channel pool: socket lifecycle

`PacketSender` owns a fixed table `sockets_` of IP-layer raw sockets
indexed by socket type, plus the link-layer state, which is
platform-dependent: on Linux a single process-wide raw packet socket
`ether_socket_`, on BSD a map `ether_socket_` from interface id to a bpf
device descriptor.  We carry all variants in one state record and give
each platform's functions their own names.  The `SocketType` enumeration
and the `types_` protocol table contents are those set up in the
constructor (packet_sender.cpp lines 104-108); the enumeration itself is
declared in the header (not part of this repository snapshot) and is the
spec's closed kind enumeration.  The OS is modelled deterministically: a
successful resource creation hands out the next fresh descriptor number
and records it in the set `osOpen` of open OS descriptors; `::close(fd)`
succeeds exactly when `fd` is currently open, and removes it.  OS-level
creation failures (`socket() == -1`, failed ioctls), which raise
`socket_open_error` in the code, are outside the claims considered here
and are not modelled. -/

inductive SocketType where
  | ETHER_SOCKET
  | IP_TCP_SOCKET
  | IP_UDP_SOCKET
  | IP_RAW_SOCKET
  | IPV6_SOCKET
  | ICMP_SOCKET
  deriving DecidableEq, Repr

/-- The error kinds thrown by the pool and send paths (exceptions.h of the
library): `invalid_socket_type` is the spec's `InvalidChannelError` /
`UnknownSocketKindError`, `socket_write_error` the spec's
`ChannelWriteError`. -/
inductive PSError where
  | invalid_socket_type
  | socket_open_error
  | socket_close_error
  | socket_write_error
  deriving DecidableEq, Repr

def INVALID_RAW_SOCKET : Int := -1

/-- `PacketSender::find_type`: the `types_` map filled in the
constructor; `ETHER_SOCKET` has no entry, so lookup fails (the code
returns -1, modelled as `none`).  The values are the `IPPROTO_*`
numbers. -/
def find_type : SocketType → Option Int
  | .IP_TCP_SOCKET => some 6
  | .IP_UDP_SOCKET => some 17
  | .IP_RAW_SOCKET => some 255
  | .IPV6_SOCKET => some 255
  | .ICMP_SOCKET => some 1
  | .ETHER_SOCKET => none

/-- Association-list lookup for the BSD `ether_socket_` map (keyed by
interface id). -/
def assocFind : List (Nat × Int) → Nat → Option Int
  | [], _ => none
  | (k, v) :: rest, i => if k = i then some v else assocFind rest i

/-- `map[key] = value` (insert or overwrite), as `std::map::operator[]`
followed by assignment does. -/
def assocSet : List (Nat × Int) → Nat → Int → List (Nat × Int)
  | [], i, v => [(i, v)]
  | (k, w) :: rest, i, v =>
      if k = i then (i, v) :: rest else (k, w) :: assocSet rest i v

/-- `map.erase(it)`: removes the single entry with the given key. -/
def assocErase : List (Nat × Int) → Nat → List (Nat × Int)
  | [], _ => []
  | (k, w) :: rest, i => if k = i then rest else (k, w) :: assocErase rest i

/-- The pool state: the `sockets_` table, the Linux `ether_socket_`, the
BSD `ether_socket_` map, the OS's next fresh descriptor number, and the
set of OS descriptors currently open (to observe leaks and to model
`::close`). -/
structure PoolState where
  sockets : SocketType → Int
  ether_socket : Int
  ether_socket_map : List (Nat × Int)
  nextFd : Nat
  osOpen : List Int

/-- The constructor's state (packet_sender.cpp lines 96-109): every
`sockets_` slot and `ether_socket_` hold `INVALID_RAW_SOCKET`, the BSD map
is empty, no OS descriptor is open. -/
def initState : PoolState :=
  { sockets := fun _ => INVALID_RAW_SOCKET,
    ether_socket := INVALID_RAW_SOCKET,
    ether_socket_map := [],
    nextFd := 0,
    osOpen := [] }

/-- Successful OS resource creation: hands out descriptor `nextFd` and
records it open. -/
def PoolState.alloc (st : PoolState) : Int × PoolState :=
  ((st.nextFd : Int),
   { st with nextFd := st.nextFd + 1, osOpen := (st.nextFd : Int) :: st.osOpen })

/-- `PacketSender::open_l3_socket` (packet_sender.cpp lines 244-266):
unknown kinds (no `types_` entry) fail with `invalid_socket_type`; a slot
already holding a socket is left untouched; otherwise a raw socket is
created and stored.  (`setsockopt(IP_HDRINCL)` has no modelled effect.) -/
def open_l3_socket (st : PoolState) (t : SocketType) : Except PSError PoolState :=
  match find_type t with
  | none => .error .invalid_socket_type
  | some _ =>
      if st.sockets t = INVALID_RAW_SOCKET then
        let a := st.alloc
        .ok { a.2 with sockets := fun u => if u = t then a.1 else st.sockets u }
      else .ok st

/-- `PacketSender::open_l2_socket`, Linux variant (packet_sender.cpp lines
232-240): create the process-wide `PF_PACKET` raw socket only when
`ether_socket_` is still invalid. -/
def open_l2_socket_linux (st : PoolState) : PoolState :=
  if st.ether_socket = INVALID_RAW_SOCKET then
    let a := st.alloc
    { a.2 with ether_socket := a.1 }
  else st

/-- `PacketSender::open_l2_socket`, BSD variant (packet_sender.cpp lines
203-231): probe `/dev/bpf*` until a device opens, bind it to the
interface, switch to immediate mode, query the buffer size, then store it
with `ether_socket_[iface.id()] = sock` — unconditionally, with no check
whether an entry already exists. -/
def open_l2_socket_bsd (st : PoolState) (iface : Nat) : PoolState :=
  let a := st.alloc
  { a.2 with ether_socket_map := assocSet st.ether_socket_map iface a.1 }

/-- `PacketSender::ether_socket_initialized`, BSD variant:
`ether_socket_.count(iface.id())`. -/
def ether_socket_initialized_bsd (st : PoolState) (iface : Nat) : Bool :=
  (assocFind st.ether_socket_map iface).isSome

/-- `PacketSender::get_ether_socket`, BSD variant (packet_sender.cpp lines
159-168): open the per-interface device only when not yet initialized,
then return the map entry. -/
def get_ether_socket_bsd (st : PoolState) (iface : Nat) : Int × PoolState :=
  let st' := if ether_socket_initialized_bsd st iface then st
             else open_l2_socket_bsd st iface
  ((assocFind st'.ether_socket_map iface).getD 0, st')

/-- `PacketSender::get_ether_socket`, Linux variant: open the global
packet socket only when `ether_socket_` is invalid, then return it. -/
def get_ether_socket_linux (st : PoolState) : Int × PoolState :=
  let st' := if st.ether_socket = INVALID_RAW_SOCKET then open_l2_socket_linux st
             else st
  (st'.ether_socket, st')

/-- The platform-independent non-`ETHER_SOCKET` branch of
`PacketSender::close_socket` (packet_sender.cpp lines 289-301): no open
socket of that type fails with `invalid_socket_type`; a failing
`close` fails with `socket_close_error` (leaving the slot as it was);
otherwise the descriptor is closed and the slot reset. -/
def close_socket_l3 (st : PoolState) (t : SocketType) : Except PSError PoolState :=
  if st.sockets t = INVALID_RAW_SOCKET then .error .invalid_socket_type
  else if st.sockets t ∈ st.osOpen then
    .ok { st with
          sockets := fun u => if u = t then INVALID_RAW_SOCKET else st.sockets u,
          osOpen := st.osOpen.erase (st.sockets t) }
  else .error .socket_close_error

/-- `PacketSender::close_socket`, Linux variant (packet_sender.cpp lines
268-302 with the non-BSD `ETHER_SOCKET` branch at lines 279-287). -/
def close_socket_linux (st : PoolState) (t : SocketType) : Except PSError PoolState :=
  if t = .ETHER_SOCKET then
    if st.ether_socket = INVALID_RAW_SOCKET then .error .invalid_socket_type
    else if st.ether_socket ∈ st.osOpen then
      .ok { st with
            ether_socket := INVALID_RAW_SOCKET,
            osOpen := st.osOpen.erase st.ether_socket }
    else .error .socket_close_error
  else close_socket_l3 st t

/-- `PacketSender::close_socket`, BSD variant (packet_sender.cpp lines
268-302 with the BSD `ETHER_SOCKET` branch at lines 270-278): the map
entry for the interface is looked up, a missing entry fails with
`invalid_socket_type`, and on success exactly that entry is erased. -/
def close_socket_bsd (st : PoolState) (t : SocketType) (iface : Nat) :
    Except PSError PoolState :=
  if t = .ETHER_SOCKET then
    match assocFind st.ether_socket_map iface with
    | none => .error .invalid_socket_type
    | some fd =>
        if fd ∈ st.osOpen then
          .ok { st with
                ether_socket_map := assocErase st.ether_socket_map iface,
                osOpen := st.osOpen.erase fd }
        else .error .socket_close_error
  else close_socket_l3 st t

lemma assocFind_assocSet (l : List (Nat × Int)) (i : Nat) (v : Int) :
    assocFind (assocSet l i v) i = some v := by
  induction l with
  | nil => simp [assocSet, assocFind]
  | cons p rest ih =>
      obtain ⟨k, w⟩ := p
      by_cases hk : k = i
      · subst hk
        simp [assocSet, assocFind]
      · simp [assocSet, assocFind, hk, ih]

lemma natCast_ne_invalid (n : Nat) : (n : Int) ≠ INVALID_RAW_SOCKET := by
  simp only [INVALID_RAW_SOCKET]
  omega

/-- **C6** counterexample: on the BSD per-interface path, `open_l2_socket`
is not guarded — starting from the fresh pool, a first call for interface
0 stores device descriptor 0, and a second call without an intervening
close creates a *second* OS device (descriptor 1, `nextFd` reaching 2),
overwrites the map entry with it, and leaves descriptor 0 open but no
longer reachable from the pool: the pool does not hold the same single
underlying handle and the first resource is leaked. -/
theorem open_l2_bsd_not_idempotent :
    assocFind (open_l2_socket_bsd initState 0).ether_socket_map 0 = some 0 ∧
    assocFind (open_l2_socket_bsd (open_l2_socket_bsd initState 0) 0).ether_socket_map 0
      = some 1 ∧
    (open_l2_socket_bsd (open_l2_socket_bsd initState 0) 0).nextFd = 2 ∧
    (0 : Int) ∈ (open_l2_socket_bsd (open_l2_socket_bsd initState 0) 0).osOpen := by
  refine ⟨rfl, rfl, rfl, ?_⟩
  simp [open_l2_socket_bsd, initState, PoolState.alloc, assocSet]

/-- **C6** (amended): opening a channel is idempotent on the IP-layer path
and the Linux link-layer path — `open_l3_socket` and `open_l2_socket`
check for an existing live handle and create the OS resource only when
there is none, so a repeated open returns the identical pool state (same
handle, no new descriptor, no leak).  On the BSD per-interface path the
unguarded `open_l2_socket` is *not* idempotent (see
`open_l2_bsd_not_idempotent`); there, idempotence holds only through
`get_ether_socket`, which consults `ether_socket_initialized` and opens
only when no device for the interface exists. -/
theorem open_channel_idempotent :
    (∀ (st : PoolState) (t : SocketType),
      (open_l3_socket st t).bind (fun st' => open_l3_socket st' t)
        = open_l3_socket st t) ∧
    (∀ st : PoolState,
      open_l2_socket_linux (open_l2_socket_linux st) = open_l2_socket_linux st) ∧
    (∀ st : PoolState,
      get_ether_socket_linux (get_ether_socket_linux st).2
        = get_ether_socket_linux st) ∧
    (∀ (st : PoolState) (iface : Nat),
      get_ether_socket_bsd (get_ether_socket_bsd st iface).2 iface
        = get_ether_socket_bsd st iface) := by
  refine ⟨?_, ?_, ?_, ?_⟩
  · intro st t
    cases hft : find_type t with
    | none => simp [open_l3_socket, hft, Except.bind]
    | some p =>
        by_cases hs : st.sockets t = INVALID_RAW_SOCKET
        · simp [open_l3_socket, hft, hs, Except.bind, PoolState.alloc,
            natCast_ne_invalid]
        · simp [open_l3_socket, hft, hs, Except.bind]
  · intro st
    by_cases hs : st.ether_socket = INVALID_RAW_SOCKET
    · simp [open_l2_socket_linux, hs, PoolState.alloc, natCast_ne_invalid]
    · simp [open_l2_socket_linux, hs]
  · intro st
    by_cases hs : st.ether_socket = INVALID_RAW_SOCKET
    · simp [get_ether_socket_linux, open_l2_socket_linux, hs, PoolState.alloc,
        natCast_ne_invalid]
    · simp [get_ether_socket_linux, hs]
  · intro st iface
    by_cases hi : ether_socket_initialized_bsd st iface
    · simp [get_ether_socket_bsd, hi]
    · have hinit : ether_socket_initialized_bsd (open_l2_socket_bsd st iface) iface
          = true := by
        simp [ether_socket_initialized_bsd, open_l2_socket_bsd, PoolState.alloc,
          assocFind_assocSet]
      simp [get_ether_socket_bsd, hi, hinit]

/-- **C7**: `close_socket` closes and removes exactly one channel from the
pool — the named slot (or map entry) is reset, every other slot and the
other link-layer state are untouched, and exactly the closed descriptor
leaves the set of open OS descriptors — and it fails with
`invalid_socket_type` (the spec's `InvalidChannelError`) whenever no
channel of that kind (or, for the BSD link layer, for that interface) is
open; in particular closing a never-opened kind fails that way, and since
the error path constructs no new state, the pool is left unchanged. -/
theorem close_socket_correct :
    (∀ (st : PoolState) (t : SocketType), t ≠ .ETHER_SOCKET →
      st.sockets t = INVALID_RAW_SOCKET →
      close_socket_linux st t = .error .invalid_socket_type ∧
      close_socket_bsd st t 0 = .error .invalid_socket_type) ∧
    (∀ st : PoolState, st.ether_socket = INVALID_RAW_SOCKET →
      close_socket_linux st .ETHER_SOCKET = .error .invalid_socket_type) ∧
    (∀ (st : PoolState) (iface : Nat),
      assocFind st.ether_socket_map iface = none →
      close_socket_bsd st .ETHER_SOCKET iface = .error .invalid_socket_type) ∧
    (∀ (st : PoolState) (t : SocketType), t ≠ .ETHER_SOCKET →
      st.sockets t ≠ INVALID_RAW_SOCKET →
      st.sockets t ∈ st.osOpen →
      close_socket_linux st t = .ok
        { st with
          sockets := fun u => if u = t then INVALID_RAW_SOCKET else st.sockets u,
          osOpen := st.osOpen.erase (st.sockets t) }) ∧
    (∀ st : PoolState, st.ether_socket ≠ INVALID_RAW_SOCKET →
      st.ether_socket ∈ st.osOpen →
      close_socket_linux st .ETHER_SOCKET = .ok
        { st with
          ether_socket := INVALID_RAW_SOCKET,
          osOpen := st.osOpen.erase st.ether_socket }) ∧
    (∀ (st : PoolState) (iface : Nat) (fd : Int),
      assocFind st.ether_socket_map iface = some fd →
      fd ∈ st.osOpen →
      close_socket_bsd st .ETHER_SOCKET iface = .ok
        { st with
          ether_socket_map := assocErase st.ether_socket_map iface,
          osOpen := st.osOpen.erase fd }) := by
  refine ⟨?_, ?_, ?_, ?_, ?_, ?_⟩
  · intro st t ht hs
    constructor
    · simp [close_socket_linux, close_socket_l3, ht, hs]
    · simp [close_socket_bsd, close_socket_l3, ht, hs]
  · intro st hs
    simp [close_socket_linux, hs]
  · intro st iface hf
    simp [close_socket_bsd, hf]
  · intro st t ht hs hos
    simp [close_socket_linux, close_socket_l3, ht, hs, hos]
  · intro st hs hos
    simp [close_socket_linux, hs, hos]
  · intro st iface fd hf hos
    simp [close_socket_bsd, hf, hos]

/-- Witness for `close_socket_correct`: from the fresh pool every close
fails with `invalid_socket_type`; from a pool holding an open TCP socket
(descriptor 5), an open Linux packet socket (descriptor 6), and a BSD map
entry for interface 1 (descriptor 7), each close succeeds and removes
exactly that channel. -/
theorem close_socket_correct_witness :
    (close_socket_linux initState .IP_TCP_SOCKET = .error .invalid_socket_type ∧
     close_socket_bsd initState .IP_TCP_SOCKET 0 = .error .invalid_socket_type) ∧
    close_socket_linux initState .ETHER_SOCKET = .error .invalid_socket_type ∧
    close_socket_bsd initState .ETHER_SOCKET 0 = .error .invalid_socket_type ∧
    close_socket_linux
        { sockets := fun u => if u = SocketType.IP_TCP_SOCKET then 5 else -1,
          ether_socket := 6, ether_socket_map := [(1, 7)], nextFd := 8,
          osOpen := [5, 6, 7] } .IP_TCP_SOCKET = .ok
        { sockets := fun u => if u = SocketType.IP_TCP_SOCKET then
            INVALID_RAW_SOCKET else
            (fun v => if v = SocketType.IP_TCP_SOCKET then 5 else -1) u,
          ether_socket := 6, ether_socket_map := [(1, 7)], nextFd := 8,
          osOpen := ([5, 6, 7] : List Int).erase 5 } ∧
    close_socket_linux
        { sockets := fun _ => -1, ether_socket := 6, ether_socket_map := [(1, 7)],
          nextFd := 8, osOpen := [6, 7] } .ETHER_SOCKET = .ok
        { sockets := fun _ => -1, ether_socket := INVALID_RAW_SOCKET,
          ether_socket_map := [(1, 7)], nextFd := 8,
          osOpen := ([6, 7] : List Int).erase 6 } ∧
    close_socket_bsd
        { sockets := fun _ => -1, ether_socket := -1, ether_socket_map := [(1, 7)],
          nextFd := 8, osOpen := [7] } .ETHER_SOCKET 1 = .ok
        { sockets := fun _ => -1, ether_socket := -1,
          ether_socket_map := assocErase [(1, 7)] 1, nextFd := 8,
          osOpen := ([7] : List Int).erase 7 } :=
  ⟨close_socket_correct.1 initState .IP_TCP_SOCKET (by decide) rfl,
   close_socket_correct.2.1 initState rfl,
   close_socket_correct.2.2.1 initState 0 rfl,
   close_socket_correct.2.2.2.1 _ .IP_TCP_SOCKET (by decide) (by decide) (by decide),
   close_socket_correct.2.2.2.2.1 _ (by decide) (by decide),
   close_socket_correct.2.2.2.2.2 _ 1 7 rfl (by decide)⟩

/-! ## Send paths

`send_l2` (packet_sender.cpp lines 343-369, the non-pcap branch at lines
357-368): serialize the PDU, fetch (opening on demand) the link-layer
socket, and, only when the buffer is non-empty, perform one OS write
(`sendto` on Linux, `::write` on BSD); a `-1` result raises
`socket_write_error`.  The serialization and the OS write result are
oracle parameters; the returned `Nat` counts the OS writes performed. -/

/-- The Linux `send_l2` body; `writeRet` is the oracle result the single
`sendto` would yield. -/
def send_l2_linux (serial : List Nat) (writeRet : Int) (st : PoolState) :
    Except PSError (PoolState × Nat) :=
  let g := get_ether_socket_linux st
  if serial.isEmpty then .ok (g.2, 0)
  else if writeRet = -1 then .error .socket_write_error
  else .ok (g.2, 1)

/-- **C8**: a link-layer send whose serialization is the empty byte
sequence performs zero OS writes and raises no error (the write is guarded
by `!buffer.empty()`); with a non-empty serialization, a failing OS write
(`sendto` returning -1) raises `socket_write_error` (the spec's
`ChannelWriteError`). -/
theorem send_l2_empty_noop (serial : List Nat) (writeRet : Int) (st : PoolState) :
    (serial = [] →
      send_l2_linux serial writeRet st = .ok ((get_ether_socket_linux st).2, 0)) ∧
    (serial ≠ [] → writeRet = -1 →
      send_l2_linux serial writeRet st = .error .socket_write_error) := by
  constructor
  · intro h
    subst h
    rfl
  · intro hne hw
    have : serial.isEmpty = false := by
      cases serial with
      | nil => exact absurd rfl hne
      | cons a l => rfl
    simp [send_l2_linux, this, hw]

/-- Witness for `send_l2_empty_noop`: the empty serialization is a no-op
from the fresh pool; the one-byte serialization with a failed write raises
the write error. -/
theorem send_l2_empty_noop_witness :
    send_l2_linux [] 0 initState = .ok ((get_ether_socket_linux initState).2, 0) ∧
    send_l2_linux [1] (-1) initState = .error .socket_write_error :=
  ⟨(send_l2_empty_noop [] 0 initState).1 rfl,
   (send_l2_empty_noop [1] (-1) initState).2 (by decide) rfl⟩

/-! ## `send_recv` and the send dispatcher -/

/-- `PacketSender::send_recv(pdu, iface)` (packet_sender.cpp lines
332-340): the transmit step `pdu.send(*this, iface)` runs inside a
`try`/`catch (runtime_error&)` whose handler returns the null pointer;
only if the transmit succeeds is `pdu.recv_response` consulted.  The PDU
hooks are external, so the transmit outcome and the receive outcome are
oracle parameters; every error kind of the library derives from
`std::runtime_error` (exceptions.h — modelled from the spec, which lists
the propagated error kinds all as caught here), so the catch covers every
`PSError`.  A reply is the (buffer, size) pair as in the receive loop. -/
def send_recv (sendResult : Except PSError Unit)
    (recvResult : Option (List Nat × Int)) : Option (List Nat × Int) :=
  match sendResult with
  | .error _ => none
  | .ok _ => recvResult

/-- **C9**: a transmit failure with any of the core's propagated error
kinds makes `send_recv` return "no reply" (null) instead of propagating,
and the result is identical to what a successful transmit followed by a
receive timeout yields — the caller cannot tell the two apart from the
result alone. -/
theorem send_recv_swallows_send_errors (e : PSError)
    (r : Option (List Nat × Int)) :
    send_recv (.error e) r = none ∧
    send_recv (.error e) r = send_recv (.ok ()) none := by
  exact ⟨rfl, rfl⟩

/-- The framing flags `PacketSender::send(PDU&, NetworkInterface)`
inspects (packet_sender.cpp lines 308-326; `TINS_HAVE_DOT11` enabled). -/
inductive PDUFlag where
  | ETHERNET_II
  | DOT11
  | RADIOTAP
  | IEEE802_3
  deriving DecidableEq, Repr

/-- The action `send(pdu, iface)` dispatches to: one of the four
link-layer template sends with the caller-supplied interface, or the
fallback `send(pdu)` (packet_sender.cpp lines 304-306), which invokes the
PDU self-dispatch hook `pdu.send(*this, default_iface_)`. -/
inductive SendAction where
  | sendEthernetII (iface : Nat)
  | sendDot11 (iface : Nat)
  | sendRadioTap (iface : Nat)
  | sendIEEE802_3 (iface : Nat)
  | pduSelfSend (iface : Nat)
  deriving DecidableEq, Repr

/-- `PacketSender::send(PDU&, NetworkInterface)`: the PDU matcher
`pdu.matches_flag` is an oracle; the flag checks happen in source order
and the final `else` calls `send(pdu)` = `pdu.send(*this,
default_iface_)`. -/
def send_dispatch (matches_flag : PDUFlag -> Bool)
    (iface default_iface : Nat) : SendAction :=
  if matches_flag .ETHERNET_II then .sendEthernetII iface
  else if matches_flag .DOT11 then .sendDot11 iface
  else if matches_flag .RADIOTAP then .sendRadioTap iface
  else if matches_flag .IEEE802_3 then .sendIEEE802_3 iface
  else .pduSelfSend default_iface

/-- **C10**: when the PDU matches none of the four link-layer framing
flags, `send(pdu, iface)` falls back to the PDU self-dispatch hook invoked
with the pool's configured default interface, and the caller-supplied
`iface` argument is discarded (the result is independent of it). -/
theorem send_dispatch_fallback (m : PDUFlag -> Bool)
    (iface iface2 dflt : Nat)
    (h1 : m .ETHERNET_II = false) (h2 : m .DOT11 = false)
    (h3 : m .RADIOTAP = false) (h4 : m .IEEE802_3 = false) :
    send_dispatch m iface dflt = .pduSelfSend dflt ∧
    send_dispatch m iface dflt = send_dispatch m iface2 dflt := by
  unfold send_dispatch
  simp [h1, h2, h3, h4]

/-- Witness for `send_dispatch_fallback`: a PDU matching no link-layer
flag, sent with interface 3 while the default interface is 9. -/
theorem send_dispatch_fallback_witness :
    send_dispatch (fun _ => false) 3 9 = .pduSelfSend 9 ∧
    send_dispatch (fun _ => false) 3 9 = send_dispatch (fun _ => false) 4 9 :=
  send_dispatch_fallback (fun _ => false) 3 4 9 rfl rfl rfl rfl

end PacketSender
